import Mathlib

/-!
Shallow embedding of src/pharmacy.js.

JavaScript numbers that can be NaN (or undefined used in arithmetic) are
modelled as Option Int: none stands for NaN/undefined, some n for the
integer n. JS arithmetic propagates NaN, and every comparison with NaN
is false; the js* helpers below reproduce exactly that.
-/

/-- A JS numeric value: some n for an integer, none for NaN (or undefined,
which behaves identically in the arithmetic and comparisons used here). -/
abbrev JSNum : Type := Option Int

/-- JS addition: NaN-propagating. -/
def jsAdd : JSNum → JSNum → JSNum
  | some a, some b => some (a + b)
  | _, _ => none

/-- JS subtraction: NaN-propagating. -/
def jsSub : JSNum → JSNum → JSNum
  | some a, some b => some (a - b)
  | _, _ => none

/-- JS multiplication: NaN-propagating. -/
def jsMul : JSNum → JSNum → JSNum
  | some a, some b => some (a * b)
  | _, _ => none

/-- JS comparison a > m against an integer: false when a is NaN. -/
def jsGtI : JSNum → Int → Bool
  | some a, m => a > m
  | none, _ => false

/-- JS comparison a < m against an integer: false when a is NaN. -/
def jsLtI : JSNum → Int → Bool
  | some a, m => a < m
  | none, _ => false

/- DRUGS_NAMES from src/pharmacy.js. -/
namespace DRUGS_NAMES

def DOLIPRANE : String := "Doliprane"

def HERBAL_TEA : String := "Herbal Tea"

def FERVEX : String := "Fervex"

def MAGIC_PILL : String := "Magic Pill"

def DAFALGAN : String := "Dafalgan"

end DRUGS_NAMES

/-- The Fervex increaseBenefits record from DRUGS_BEHAVIOR. -/
structure FervexTiers where
  default : Int
  lessThan10Days : Int
  lessThan5Days : Int
  afterExpiry : Int
deriving DecidableEq

/-- A drug behavior record. JS objects are heterogeneous: a field absent
from a record reads as undefined, which in the arithmetic it feeds into
behaves as NaN; absent numeric fields are therefore modelled as none. -/
structure Behavior where
  decreaseBenefit : JSNum := none
  increaseBenefit : JSNum := none
  increaseBenefitBeforeExpiration : JSNum := none
  increaseBenefitAfterExpiration : JSNum := none
  increaseBenefits : Option FervexTiers := none
deriving DecidableEq

/-- DEFAULT_DRUGS_BEHAVIOR = \x7bdecreaseBenefit: 1, increaseBenefit: 0\x7d. -/
def DEFAULT_DRUGS_BEHAVIOR : Behavior :=
  { decreaseBenefit := some 1, increaseBenefit := some 0 }

/-- multiple_value = 2. -/
def multiple_value : Int := 2

/-- The property names every JS object literal inherits from
Object.prototype. For these names DRUGS_BEHAVIOR[name] walks the
prototype chain and returns a truthy value (a function, or for
the proto accessor the Object.prototype object itself), so the
|| DEFAULT_DRUGS_BEHAVIOR fallback in updateBenefitValue is skipped. -/
def OBJECT_PROTOTYPE_PROPS : List String :=
  ["constructor", "hasOwnProperty", "isPrototypeOf",
   "propertyIsEnumerable", "toLocaleString", "toString", "valueOf",
   "__proto__", "__defineGetter__", "__defineSetter__",
   "__lookupGetter__", "__lookupSetter__"]

/-- DRUGS_BEHAVIOR from src/pharmacy.js as a partial map modelling the
JS object lookup DRUGS_BEHAVIOR[name]: the four own properties first,
then the Object.prototype inherited properties, which yield a truthy
junk value none of whose behavior fields is defined (every numeric
field reads undefined, modelled as a Behavior with all fields none);
only names hitting neither give undefined (none), triggering the
fallback. Herbal Tea note: the source sets
increaseBenefitAfterExpiration to
[DRUGS_NAMES.HERBAL_TEA].increaseBenefitBeforeExpiration * multiple_value,
i.e. a field access on an array literal, which reads undefined, and
undefined * 2 evaluates to NaN: hence none below. -/
def DRUGS_BEHAVIOR : String → Option Behavior := fun name =>
  if name = DRUGS_NAMES.HERBAL_TEA then
    some { increaseBenefitBeforeExpiration := some 1,
           increaseBenefitAfterExpiration := none }
  else if name = DRUGS_NAMES.FERVEX then
    some { increaseBenefits :=
             some { default := 1, lessThan10Days := 2, lessThan5Days := 3,
                    afterExpiry := 0 } }
  else if name = DRUGS_NAMES.MAGIC_PILL then
    some { decreaseBenefit := some 0, increaseBenefit := some 0 }
  else if name = DRUGS_NAMES.DAFALGAN then
    some { decreaseBenefit := jsMul DEFAULT_DRUGS_BEHAVIOR.decreaseBenefit
                                    (some multiple_value) }
  else if name ∈ OBJECT_PROTOTYPE_PROPS then
    some {}
  else none

/-- Drug: name, expiresIn, benefit. The benefit is a JS number that the
buggy expired-Herbal-Tea path can turn into NaN, hence JSNum. -/
structure Drug where
  name : String
  expiresIn : Int
  benefit : JSNum
deriving DecidableEq

/-- Pharmacy.increaseBenefit with the default maxBenefit = 50 used at
every call site: if benefit + B > 50 then 50 else benefit + B. -/
def increaseBenefit (d : Drug) (B : JSNum) : Drug :=
  if jsGtI (jsAdd d.benefit B) 50 then { d with benefit := some 50 }
  else { d with benefit := jsAdd d.benefit B }

/-- Pharmacy.decreaseBenefit with the default minBenefit = 0 used at
every call site: if benefit - B < 0 then 0 else benefit - B. -/
def decreaseBenefit (d : Drug) (B : JSNum) : Drug :=
  if jsLtI (jsSub d.benefit B) 0 then { d with benefit := some 0 }
  else { d with benefit := jsSub d.benefit B }

/-- Pharmacy.decreaseExpiresIn. -/
def decreaseExpiresIn (d : Drug) : Drug :=
  if d.name ≠ DRUGS_NAMES.MAGIC_PILL then
    { d with expiresIn := d.expiresIn - 1 }
  else d

/-- Pharmacy.updateHerbalTea. -/
def updateHerbalTea (d : Drug) (b : Behavior) : Drug :=
  if d.expiresIn < 0 then increaseBenefit d b.increaseBenefitAfterExpiration
  else increaseBenefit d b.increaseBenefitBeforeExpiration

/-- Pharmacy.updateFervex. -/
def updateFervex (d : Drug) (b : Behavior) : Drug :=
  if d.expiresIn ≤ 0 then
    { d with benefit := Option.map FervexTiers.afterExpiry b.increaseBenefits }
  else if d.expiresIn ≤ 5 ∧ d.expiresIn > 0 then
    increaseBenefit d (Option.map FervexTiers.lessThan5Days b.increaseBenefits)
  else if d.expiresIn ≤ 10 ∧ d.expiresIn > 5 then
    increaseBenefit d (Option.map FervexTiers.lessThan10Days b.increaseBenefits)
  else
    increaseBenefit d (Option.map FervexTiers.default b.increaseBenefits)

/-- Pharmacy.updateDafalgan. -/
def updateDafalgan (d : Drug) (b : Behavior) : Drug :=
  if d.expiresIn < 0 then
    decreaseBenefit d (jsMul b.decreaseBenefit (some multiple_value))
  else decreaseBenefit d b.decreaseBenefit

/-- Pharmacy.updateNormalDrug. -/
def updateNormalDrug (d : Drug) (b : Behavior) : Drug :=
  decreaseBenefit d b.decreaseBenefit

/-- Pharmacy.handleNotExpired: switch on drug.name. -/
def handleNotExpired (d : Drug) (b : Behavior) : Drug :=
  if d.name = DRUGS_NAMES.HERBAL_TEA then updateHerbalTea d b
  else if d.name = DRUGS_NAMES.FERVEX then updateFervex d b
  else if d.name = DRUGS_NAMES.MAGIC_PILL then d
  else if d.name = DRUGS_NAMES.DAFALGAN then updateDafalgan d b
  else updateNormalDrug d b

/-- Pharmacy.handleExpired: switch on drug.name; note there is no
Magic Pill case, so an expired Magic Pill takes the default branch,
and the Herbal Tea case reads behavior.increaseBenefit, a field the
Herbal Tea behavior record does not define (undefined, i.e. none). -/
def handleExpired (d : Drug) (b : Behavior) : Drug :=
  if d.name = DRUGS_NAMES.HERBAL_TEA then increaseBenefit d b.increaseBenefit
  else if d.name = DRUGS_NAMES.FERVEX then
    { d with benefit := Option.map FervexTiers.afterExpiry b.increaseBenefits }
  else if d.name = DRUGS_NAMES.DAFALGAN then
    decreaseBenefit d (jsMul b.decreaseBenefit (some multiple_value))
  else decreaseBenefit d (jsMul b.decreaseBenefit (some multiple_value))

/-- The per-drug body of Pharmacy.updateBenefitValue: look up the
behavior (|| DEFAULT_DRUGS_BEHAVIOR), dispatch on expiresIn > 0, then
decreaseExpiresIn. -/
def updateDrugStep (d : Drug) : Drug :=
  let behavior := (DRUGS_BEHAVIOR d.name).getD DEFAULT_DRUGS_BEHAVIOR
  decreaseExpiresIn
    (if d.expiresIn > 0 then handleNotExpired d behavior
     else handleExpired d behavior)

/-- Pharmacy.updateBenefitValue: forEach over the drugs list, each
iteration updating only its own drug. -/
def updateBenefitValue : List Drug → List Drug
  | [] => []
  | d :: ds => updateDrugStep d :: updateBenefitValue ds

/-! Helper lemmas: every benefit-adjusting helper leaves name and
expiresIn untouched. -/

@[simp] lemma increaseBenefit_name (d : Drug) (B : JSNum) :
    (increaseBenefit d B).name = d.name := by
  unfold increaseBenefit; split <;> rfl

@[simp] lemma increaseBenefit_expiresIn (d : Drug) (B : JSNum) :
    (increaseBenefit d B).expiresIn = d.expiresIn := by
  unfold increaseBenefit; split <;> rfl

@[simp] lemma decreaseBenefit_name (d : Drug) (B : JSNum) :
    (decreaseBenefit d B).name = d.name := by
  unfold decreaseBenefit; split <;> rfl

@[simp] lemma decreaseBenefit_expiresIn (d : Drug) (B : JSNum) :
    (decreaseBenefit d B).expiresIn = d.expiresIn := by
  unfold decreaseBenefit; split <;> rfl

@[simp] lemma handleNotExpired_name (d : Drug) (b : Behavior) :
    (handleNotExpired d b).name = d.name := by
  unfold handleNotExpired updateHerbalTea updateFervex updateDafalgan
    updateNormalDrug
  split_ifs <;> simp

@[simp] lemma handleNotExpired_expiresIn (d : Drug) (b : Behavior) :
    (handleNotExpired d b).expiresIn = d.expiresIn := by
  unfold handleNotExpired updateHerbalTea updateFervex updateDafalgan
    updateNormalDrug
  split_ifs <;> simp

@[simp] lemma handleExpired_name (d : Drug) (b : Behavior) :
    (handleExpired d b).name = d.name := by
  unfold handleExpired
  split_ifs <;> simp

@[simp] lemma handleExpired_expiresIn (d : Drug) (b : Behavior) :
    (handleExpired d b).expiresIn = d.expiresIn := by
  unfold handleExpired
  split_ifs <;> simp

/-- C1: claim that for batches of values in range the in-range invariant
holds after one call, for every name and expiry. The code violates it:
an expired Herbal Tea item has its benefit set to NaN (none), because
handleExpired reads the nonexistent field behavior.increaseBenefit. -/
theorem herbalTea_expired_breaks_value_invariant :
    updateBenefitValue [⟨DRUGS_NAMES.HERBAL_TEA, 0, some 10⟩] =
      [⟨DRUGS_NAMES.HERBAL_TEA, -1, none⟩] ∧
    ∀ v : Int, (updateBenefitValue
      [⟨DRUGS_NAMES.HERBAL_TEA, 0, some 10⟩]).map Drug.benefit ≠ [some v] := by
  constructor
  · rfl
  · intro v h
    rw [show updateBenefitValue [⟨DRUGS_NAMES.HERBAL_TEA, 0, some 10⟩] =
        [⟨DRUGS_NAMES.HERBAL_TEA, -1, none⟩] from rfl] at h
    simp at h

/-- C2: claim that an expired (expiry <= 0) Herbal Tea gains 2 benefit.
The code instead sets its benefit to NaN (none): behavior.increaseBenefit
is undefined on the Herbal Tea behavior record. -/
theorem herbalTea_expired_benefit_nan :
    updateDrugStep ⟨DRUGS_NAMES.HERBAL_TEA, 0, some 10⟩ =
      ⟨DRUGS_NAMES.HERBAL_TEA, -1, none⟩ ∧
    (updateDrugStep ⟨DRUGS_NAMES.HERBAL_TEA, 0, some 10⟩).benefit ≠
      some 12 := by
  constructor
  · rfl
  · decide

/-- C5 counterexample: a Magic Pill with a negative benefit does change:
handleExpired has no Magic Pill case, so the default branch clamps the
benefit up to 0 (here from -1 to 0). -/
theorem magicPill_negative_value_changes :
    updateDrugStep ⟨DRUGS_NAMES.MAGIC_PILL, 0, some (-1)⟩ =
      ⟨DRUGS_NAMES.MAGIC_PILL, 0, some 0⟩ ∧
    (updateDrugStep ⟨DRUGS_NAMES.MAGIC_PILL, 0, some (-1)⟩).benefit ≠
      some (-1) := by
  constructor
  · rfl
  · decide

/-- C5 amended: a Magic Pill whose benefit is not a negative integer is a
fixed point of the transition: any number of successive calls changes
neither expiresIn nor benefit. -/
theorem magicPill_frozen (n : Nat) (d : Drug)
    (hname : d.name = DRUGS_NAMES.MAGIC_PILL)
    (hben : ∀ v : Int, d.benefit = some v → 0 ≤ v) :
    updateDrugStep^[n] d = d := by
  obtain ⟨name, e, ben⟩ := d
  subst hname
  have hfix : updateDrugStep ⟨DRUGS_NAMES.MAGIC_PILL, e, ben⟩ =
      ⟨DRUGS_NAMES.MAGIC_PILL, e, ben⟩ := by
    unfold updateDrugStep DRUGS_BEHAVIOR handleNotExpired handleExpired
      decreaseExpiresIn decreaseBenefit
    by_cases he : e > 0
    · simp [DRUGS_NAMES.MAGIC_PILL, DRUGS_NAMES.HERBAL_TEA,
        DRUGS_NAMES.FERVEX, DRUGS_NAMES.DAFALGAN, he]
    · cases ben with
      | none =>
        simp [DRUGS_NAMES.MAGIC_PILL, DRUGS_NAMES.HERBAL_TEA,
          DRUGS_NAMES.FERVEX, DRUGS_NAMES.DAFALGAN, he,
          jsMul, jsSub, jsLtI, multiple_value]
      | some v =>
        have hv : 0 ≤ v := hben v rfl
        have hlt : ¬ (v < 0) := by omega
        simp [DRUGS_NAMES.MAGIC_PILL, DRUGS_NAMES.HERBAL_TEA,
          DRUGS_NAMES.FERVEX, DRUGS_NAMES.DAFALGAN, he,
          jsMul, jsSub, jsLtI, multiple_value, hlt]
  exact Function.iterate_fixed hfix n

/-- C5 witness: the amended theorem at a concrete Magic Pill with
negative expiry, iterated five times. -/
theorem magicPill_frozen_witness :
    (⟨DRUGS_NAMES.MAGIC_PILL, -3, some 7⟩ : Drug).name =
      DRUGS_NAMES.MAGIC_PILL ∧
    updateDrugStep^[5] ⟨DRUGS_NAMES.MAGIC_PILL, -3, some 7⟩ =
      ⟨DRUGS_NAMES.MAGIC_PILL, -3, some 7⟩ :=
  ⟨rfl, magicPill_frozen 5 ⟨DRUGS_NAMES.MAGIC_PILL, -3, some 7⟩ rfl
    (by intro v hv; simp at hv; omega)⟩

/-- C3: one transition of a Fervex item with benefit in range: benefit
forced to 0 when expiresIn <= 0 on entry, +3 when 0 < expiresIn <= 5,
+2 when 5 < expiresIn <= 10, +1 when expiresIn > 10, each clamped at 50,
with the tier decided on the pre-decrement expiresIn; expiresIn drops
by 1. -/
theorem fervex_step (e v : Int) (h0 : 0 ≤ v) (h50 : v ≤ 50) :
    updateDrugStep ⟨DRUGS_NAMES.FERVEX, e, some v⟩ =
      ⟨DRUGS_NAMES.FERVEX, e - 1,
        some (if e ≤ 0 then 0
              else if e ≤ 5 then min (v + 3) 50
              else if e ≤ 10 then min (v + 2) 50
              else min (v + 1) 50)⟩ := by
  have hB : (DRUGS_BEHAVIOR DRUGS_NAMES.FERVEX).getD DEFAULT_DRUGS_BEHAVIOR =
      { increaseBenefits :=
          some { default := 1, lessThan10Days := 2, lessThan5Days := 3,
                 afterExpiry := 0 } } := by rfl
  simp only [updateDrugStep, hB]
  simp [handleNotExpired, handleExpired, updateHerbalTea, updateFervex,
    updateDafalgan, updateNormalDrug, increaseBenefit, decreaseBenefit,
    decreaseExpiresIn, jsAdd, jsGtI, jsSub, jsLtI, jsMul,
    DRUGS_NAMES.FERVEX, DRUGS_NAMES.HERBAL_TEA, DRUGS_NAMES.MAGIC_PILL,
    DRUGS_NAMES.DAFALGAN]
  split_ifs <;> simp_all [Drug.mk.injEq] <;> omega

/-- C3 witness: the boundary case (expiry 10, value 20) lands in the
"at most 10 days" tier and gains 2. -/
theorem fervex_step_witness :
    ((0:Int) ≤ 20 ∧ (20:Int) ≤ 50) ∧
    updateDrugStep ⟨DRUGS_NAMES.FERVEX, 10, some 20⟩ =
      ⟨DRUGS_NAMES.FERVEX, 10 - 1,
        some (if (10:Int) ≤ 0 then 0
              else if (10:Int) ≤ 5 then min (20 + 3) 50
              else if (10:Int) ≤ 10 then min (20 + 2) 50
              else min (20 + 1) 50)⟩ :=
  ⟨⟨by decide, by decide⟩, fervex_step 10 20 (by decide) (by decide)⟩

/-- C4: the expired/not-expired dispatch is decided on the expiresIn
value on entry to the call, before the decrement; in particular a
Dafalgan item at (expiresIn 0, benefit 10) takes the expired rule and
becomes (expiresIn -1, benefit 6). -/
theorem expiry_check_before_decrement (d : Drug) :
    (d.expiresIn ≤ 0 →
      updateDrugStep d = decreaseExpiresIn
        (handleExpired d
          ((DRUGS_BEHAVIOR d.name).getD DEFAULT_DRUGS_BEHAVIOR))) ∧
    (0 < d.expiresIn →
      updateDrugStep d = decreaseExpiresIn
        (handleNotExpired d
          ((DRUGS_BEHAVIOR d.name).getD DEFAULT_DRUGS_BEHAVIOR))) ∧
    updateDrugStep ⟨DRUGS_NAMES.DAFALGAN, 0, some 10⟩ =
      ⟨DRUGS_NAMES.DAFALGAN, -1, some 6⟩ := by
  refine ⟨?_, ?_, by rfl⟩
  · intro h
    simp only [updateDrugStep]
    rw [if_neg (by omega : ¬ d.expiresIn > 0)]
  · intro h
    simp only [updateDrugStep]
    rw [if_pos (by omega : d.expiresIn > 0)]

/-- C4 witness: the dispatch theorem applied at the expired Dafalgan
input (expiresIn 0), with the hypothesis discharged concretely. -/
theorem expiry_check_before_decrement_witness :
    (⟨DRUGS_NAMES.DAFALGAN, 0, some 10⟩ : Drug).expiresIn ≤ 0 ∧
    updateDrugStep ⟨DRUGS_NAMES.DAFALGAN, 0, some 10⟩ =
      decreaseExpiresIn
        (handleExpired ⟨DRUGS_NAMES.DAFALGAN, 0, some 10⟩
          ((DRUGS_BEHAVIOR DRUGS_NAMES.DAFALGAN).getD
            DEFAULT_DRUGS_BEHAVIOR)) :=
  ⟨by decide,
   (expiry_check_before_decrement ⟨DRUGS_NAMES.DAFALGAN, 0, some 10⟩).1
     (by decide)⟩

/-- C6: one transition of a Dafalgan item with benefit in range loses 2
benefit (clamped at 0) when expiresIn > 0 on entry and 4 (clamped at 0)
when expiresIn <= 0, and expiresIn drops by 1. -/
theorem dafalgan_step (e v : Int) (h0 : 0 ≤ v) (h50 : v ≤ 50) :
    updateDrugStep ⟨DRUGS_NAMES.DAFALGAN, e, some v⟩ =
      ⟨DRUGS_NAMES.DAFALGAN, e - 1,
        some (if 0 < e then max (v - 2) 0 else max (v - 4) 0)⟩ := by
  have hB : (DRUGS_BEHAVIOR DRUGS_NAMES.DAFALGAN).getD DEFAULT_DRUGS_BEHAVIOR =
      { decreaseBenefit := some 2 } := by rfl
  simp only [updateDrugStep, hB]
  simp [handleNotExpired, handleExpired, updateHerbalTea, updateFervex,
    updateDafalgan, updateNormalDrug, increaseBenefit, decreaseBenefit,
    decreaseExpiresIn, jsAdd, jsGtI, jsSub, jsLtI, jsMul, multiple_value,
    DRUGS_NAMES.FERVEX, DRUGS_NAMES.HERBAL_TEA, DRUGS_NAMES.MAGIC_PILL,
    DRUGS_NAMES.DAFALGAN]
  split_ifs <;> simp_all [Drug.mk.injEq] <;> omega

/-- C6 witness: the expired Dafalgan spec vector (0, 10) becomes
(-1, 6). -/
theorem dafalgan_step_witness :
    ((0:Int) ≤ 10 ∧ (10:Int) ≤ 50) ∧
    updateDrugStep ⟨DRUGS_NAMES.DAFALGAN, 0, some 10⟩ =
      ⟨DRUGS_NAMES.DAFALGAN, 0 - 1,
        some (if (0:Int) < 0 then max (10 - 2) 0 else max (10 - 4) 0)⟩ :=
  ⟨⟨by decide, by decide⟩, dafalgan_step 0 10 (by decide) (by decide)⟩

/-- C7 counterexample: the claim says every name other than the four
registered ones gets the default rule, but the name constructor is an
Object.prototype property, so the lookup returns a truthy junk value,
the fallback is skipped, behavior.decreaseBenefit is undefined and the
benefit becomes NaN (none) instead of 10 - 1 = 9. -/
theorem default_rule_prototype_name_counterexample :
    updateDrugStep ⟨"constructor", 2, some 10⟩ =
      ⟨"constructor", 1, none⟩ ∧
    (updateDrugStep ⟨"constructor", 2, some 10⟩).benefit ≠ some 9 := by
  constructor
  · rfl
  · decide

/-- C7 amended: any name that is neither one of the four switch cases
nor an Object.prototype property name (including Doliprane) takes the
default rule, with no error: benefit loses 1 (clamped at 0) when
expiresIn > 0 on entry and 2 (clamped at 0) when expiresIn <= 0, and
expiresIn drops by 1. -/
theorem default_rule_step (name : String) (e v : Int)
    (h1 : name ≠ DRUGS_NAMES.HERBAL_TEA) (h2 : name ≠ DRUGS_NAMES.FERVEX)
    (h3 : name ≠ DRUGS_NAMES.MAGIC_PILL) (h4 : name ≠ DRUGS_NAMES.DAFALGAN)
    (h5 : name ∉ OBJECT_PROTOTYPE_PROPS)
    (h0 : 0 ≤ v) (h50 : v ≤ 50) :
    updateDrugStep ⟨name, e, some v⟩ =
      ⟨name, e - 1,
        some (if 0 < e then max (v - 1) 0 else max (v - 2) 0)⟩ := by
  have hB : (DRUGS_BEHAVIOR name).getD DEFAULT_DRUGS_BEHAVIOR =
      DEFAULT_DRUGS_BEHAVIOR := by
    simp [DRUGS_BEHAVIOR, h1, h2, h3, h4, h5]
  simp only [updateDrugStep, hB]
  simp [handleNotExpired, handleExpired, updateHerbalTea, updateFervex,
    updateDafalgan, updateNormalDrug, increaseBenefit, decreaseBenefit,
    decreaseExpiresIn, jsAdd, jsGtI, jsSub, jsLtI, jsMul, multiple_value,
    DEFAULT_DRUGS_BEHAVIOR, h1, h2, h3, h4]
  split_ifs <;> simp_all [Drug.mk.injEq] <;> omega

/-- C7 witness: Doliprane, which appears in DRUGS_NAMES but has no entry
in DRUGS_BEHAVIOR and is no Object.prototype property, at the
default-rule spec vector (2, 3) becoming (1, 2). -/
theorem default_rule_step_witness :
    (DRUGS_NAMES.DOLIPRANE ≠ DRUGS_NAMES.HERBAL_TEA ∧
     DRUGS_NAMES.DOLIPRANE ≠ DRUGS_NAMES.FERVEX ∧
     DRUGS_NAMES.DOLIPRANE ≠ DRUGS_NAMES.MAGIC_PILL ∧
     DRUGS_NAMES.DOLIPRANE ≠ DRUGS_NAMES.DAFALGAN ∧
     DRUGS_NAMES.DOLIPRANE ∉ OBJECT_PROTOTYPE_PROPS ∧
     (0:Int) ≤ 3 ∧ (3:Int) ≤ 50) ∧
    updateDrugStep ⟨DRUGS_NAMES.DOLIPRANE, 2, some 3⟩ =
      ⟨DRUGS_NAMES.DOLIPRANE, 2 - 1,
        some (if (0:Int) < 2 then max (3 - 1) 0 else max (3 - 2) 0)⟩ :=
  ⟨⟨by decide, by decide, by decide, by decide, by decide, by decide,
    by decide⟩,
   default_rule_step DRUGS_NAMES.DOLIPRANE 2 3 (by decide) (by decide)
     (by decide) (by decide) (by decide) (by decide) (by decide)⟩

/-- C8: every drug other than the Magic Pill has its expiresIn lowered
by exactly 1 per call, whatever its name, benefit (even NaN) and
current, possibly negative, expiresIn. -/
theorem expiresIn_decreases_by_one (d : Drug)
    (h : d.name ≠ DRUGS_NAMES.MAGIC_PILL) :
    (updateDrugStep d).expiresIn = d.expiresIn - 1 := by
  have key : ∀ dd : Drug, dd.name ≠ DRUGS_NAMES.MAGIC_PILL →
      (decreaseExpiresIn dd).expiresIn = dd.expiresIn - 1 := by
    intro dd hdd; simp [decreaseExpiresIn, hdd]
  simp only [updateDrugStep]
  by_cases he : d.expiresIn > 0
  · rw [if_pos he, key _ (by simp [h]), handleNotExpired_expiresIn]
  · rw [if_neg he, key _ (by simp [h]), handleExpired_expiresIn]

/-- C8 witness: a Doliprane item at expiresIn 5 ends at 4. -/
theorem expiresIn_decreases_by_one_witness :
    (⟨DRUGS_NAMES.DOLIPRANE, 5, some 3⟩ : Drug).name ≠
      DRUGS_NAMES.MAGIC_PILL ∧
    (updateDrugStep ⟨DRUGS_NAMES.DOLIPRANE, 5, some 3⟩).expiresIn = 5 - 1 :=
  ⟨by decide,
   expiresIn_decreases_by_one ⟨DRUGS_NAMES.DOLIPRANE, 5, some 3⟩ (by decide)⟩

/-- C9: updateBenefitValue is the element-wise map of the single-drug
transition: same length and order, each output drug a function of its
own input drug alone, and permuting the batch commutes with one call. -/
theorem updateBenefitValue_is_map :
    (∀ l : List Drug, updateBenefitValue l = l.map updateDrugStep) ∧
    (∀ l : List Drug, (updateBenefitValue l).length = l.length) ∧
    (∀ l₁ l₂ : List Drug, l₁.Perm l₂ →
      (updateBenefitValue l₁).Perm (updateBenefitValue l₂)) := by
  have hmap : ∀ l : List Drug, updateBenefitValue l = l.map updateDrugStep := by
    intro l
    induction l with
    | nil => rfl
    | cons d ds ih => simp [updateBenefitValue, ih]
  refine ⟨hmap, ?_, ?_⟩
  · intro l; rw [hmap]; simp
  · intro l₁ l₂ hp
    rw [hmap, hmap]
    exact hp.map updateDrugStep

/-- C9 witness: swapping a two-drug batch and advancing gives the swap
of the advanced batch. -/
theorem updateBenefitValue_is_map_witness :
    ([⟨DRUGS_NAMES.DOLIPRANE, 1, some 3⟩, ⟨DRUGS_NAMES.FERVEX, 0, some 4⟩]
      : List Drug).Perm
      [⟨DRUGS_NAMES.FERVEX, 0, some 4⟩, ⟨DRUGS_NAMES.DOLIPRANE, 1, some 3⟩] ∧
    (updateBenefitValue
      [⟨DRUGS_NAMES.DOLIPRANE, 1, some 3⟩, ⟨DRUGS_NAMES.FERVEX, 0, some 4⟩]).Perm
      (updateBenefitValue
        [⟨DRUGS_NAMES.FERVEX, 0, some 4⟩, ⟨DRUGS_NAMES.DOLIPRANE, 1, some 3⟩]) :=
  ⟨List.Perm.swap _ _ _,
   updateBenefitValue_is_map.2.2 _ _ (List.Perm.swap _ _ _)⟩

/-- C10 counterexample: the claim says every unregistered name with
expiresIn > 0 and benefit v >= 1 ends at exactly v - 1, but the name
constructor, though registered nowhere in DRUGS_BEHAVIOR, hits an
Object.prototype property: the truthy junk lookup result skips the
fallback and v - undefined makes the benefit NaN (none), not 59. -/
theorem decay_prototype_name_counterexample :
    (updateDrugStep ⟨"constructor", 1, some 60⟩).benefit = none ∧
    (updateDrugStep ⟨"constructor", 1, some 60⟩).benefit ≠ some 59 := by
  constructor
  · rfl
  · decide

/-- C10 amended: on the default decay path the 0..50 bound is preserved
but not re-established: a name that neither is one of the four switch
cases nor an Object.prototype property name, with expiresIn > 0 and
benefit v >= 1, ends at exactly v - 1, so a benefit above 50 stays
above 50, as at the concrete input (name X, expiresIn 1, benefit 60)
ending at 59. -/
theorem decay_not_reclamped_above_50 :
    (∀ (name : String) (e v : Int),
      name ≠ DRUGS_NAMES.HERBAL_TEA → name ≠ DRUGS_NAMES.FERVEX →
      name ≠ DRUGS_NAMES.MAGIC_PILL → name ≠ DRUGS_NAMES.DAFALGAN →
      name ∉ OBJECT_PROTOTYPE_PROPS →
      0 < e → 1 ≤ v →
      (updateDrugStep ⟨name, e, some v⟩).benefit = some (v - 1)) ∧
    (updateDrugStep ⟨"X", 1, some 60⟩).benefit = some 59 := by
  refine ⟨?_, by rfl⟩
  intro name e v h1 h2 h3 h4 h5 he hv
  have hB : (DRUGS_BEHAVIOR name).getD DEFAULT_DRUGS_BEHAVIOR =
      DEFAULT_DRUGS_BEHAVIOR := by
    simp [DRUGS_BEHAVIOR, h1, h2, h3, h4, h5]
  simp only [updateDrugStep, hB]
  simp [handleNotExpired, handleExpired, updateHerbalTea, updateFervex,
    updateDafalgan, updateNormalDrug, increaseBenefit, decreaseBenefit,
    decreaseExpiresIn, jsAdd, jsGtI, jsSub, jsLtI, jsMul, multiple_value,
    DEFAULT_DRUGS_BEHAVIOR, h1, h2, h3, h4, he]
  split_ifs <;> simp_all <;> omega

/-- C10 witness: the universal part at the concrete input (X, 1, 60),
every hypothesis discharged there. -/
theorem decay_not_reclamped_above_50_witness :
    ("X" ≠ DRUGS_NAMES.HERBAL_TEA ∧ "X" ≠ DRUGS_NAMES.FERVEX ∧
     "X" ≠ DRUGS_NAMES.MAGIC_PILL ∧ "X" ≠ DRUGS_NAMES.DAFALGAN ∧
     "X" ∉ OBJECT_PROTOTYPE_PROPS ∧
     (0:Int) < 1 ∧ (1:Int) ≤ 60) ∧
    (updateDrugStep ⟨"X", 1, some 60⟩).benefit = some (60 - 1) :=
  ⟨⟨by decide, by decide, by decide, by decide, by decide, by decide,
    by decide⟩,
   decay_not_reclamped_above_50.1 "X" 1 60 (by decide) (by decide)
     (by decide) (by decide) (by decide) (by decide) (by decide)⟩
